import Mathlib

/-!
Verification of the conversation-evaluation pipeline of the `fyp` repository
(`llm-testing`): termination logic, orchestration invariants, LLM-judge score
parsing and weighting, heuristic plan checks, summary statistics, and the
human-vs-judge rating reconciliation.

Python machine floats are modelled as exact rationals (`ℚ`); external
generative/HTTP calls are modelled as explicit `Except`-valued inputs.
-/

namespace Fyp

/-- One simulator-facing message: the `{"role": ..., "content": ...}` dict of
`conversation_history` in the orchestrator and termination checker. -/
structure Msg where
  role : String
  content : String
deriving Repr, DecidableEq

/-- `ConversationParameters` from `src/persona/models.py` (fields used by the
evaluation pipeline). -/
structure ConversationParameters where
  max_patience_turns : ℕ
  escalation_threshold : ℕ
  tech_literacy : String
deriving Repr, DecidableEq

/-- `Persona` from `src/persona/models.py` (fields consumed by the termination
checker and orchestrator; display-only fields omitted). -/
structure Persona where
  id : String
  name : String
  conversation_parameters : ConversationParameters
  seed_utterance : String
deriving Repr, DecidableEq

/-- Python `str.lower()` restricted to the ASCII range, as a map over the
character data of the string. -/
def lowerStr (s : String) : String :=
  String.mk (s.data.map Char.toLower)

/-- Contiguous-substring test on character lists: the semantics of Python's
`needle in haystack`. -/
def containsSub (needle : List Char) : List Char → Bool
  | [] => needle.isEmpty
  | c :: rest => needle.isPrefixOf (c :: rest) || containsSub needle rest

/-- Python `needle in hay` on strings. -/
def strContains (hay needle : String) : Bool :=
  containsSub needle.data hay.data

/-- Python `any(p in s for p in phrases)`. -/
def anyPhrase (phrases : List String) (s : String) : Bool :=
  phrases.any (fun p => strContains s p)

/-- `satisfaction_indicators` from `TerminationChecker.should_terminate`. -/
def satisfactionIndicators : List String :=
  ["thank you", "thanks so much", "that helps",
   "perfect", "great", "excellent", "got it",
   "understand now", "makes sense", "that's all",
   "all set", "that's everything", "appreciate it",
   "that's what i needed", "that clarifies"]

/-- `closing_indicators` from `TerminationChecker.should_terminate`. -/
def closingIndicators : List String :=
  ["that's all", "that's everything", "all set",
   "that's what i needed", "that clarifies"]

/-- `escalation_phrases` from `TerminationChecker.should_terminate`. -/
def escalationPhrases : List String :=
  ["speak to a person", "human agent", "real person",
   "supervisor", "manager", "escalate", "someone else",
   "not helping", "this isn't working", "tired of this"]

/-- `repetition_indicators` from `TerminationChecker._check_stalemate`. -/
def repetitionIndicators : List String :=
  ["i already asked", "i said", "like i said", "as i mentioned",
   "i told you", "i need", "still", "again"]

/-- `frustration_words` from `TerminationChecker._check_stalemate`. -/
def frustrationWords : List String :=
  ["ridiculous", "useless", "waste", "pathetic",
   "terrible", "awful", "horrible", "worst"]

/-- The reverse scan of `should_terminate` that finds the most recent user
message and lowercases it (`last_user_msg`). Returns `none` when no user
message exists. -/
def lastUserContent (history : List Msg) : Option String :=
  (history.reverse.find? (fun m => m.role == "user")).map
    (fun m => lowerStr m.content)

/-- `TerminationChecker._check_stalemate`: repetition across the last three
user messages, or frustration in the most recent one. -/
def checkStalemate (history : List Msg) : Bool × Option String :=
  let userMessages := (history.filter (fun m => m.role == "user")).map
    (fun m => lowerStr m.content)
  if userMessages.length < 3 then (false, none)
  else
    let lastThree := userMessages.drop (userMessages.length - 3)
    let repetitionCount :=
      lastThree.countP (fun msg => anyPhrase repetitionIndicators msg)
    if 2 ≤ repetitionCount then
      (true, some "User repeatedly asking similar questions")
    else if anyPhrase frustrationWords (lastThree.getLastD "") then
      (true, some "User showing strong frustration")
    else (false, none)

/-- `TerminationChecker.should_terminate` (`max_turns` is the checker's
configuration field). The source's nested conditionals are flattened into a
first-match guard chain with identical semantics; the guard `u != ""` mirrors
Python's truthiness test `if last_user_msg:`. -/
def shouldTerminate (maxTurns : ℕ) (persona : Persona) (history : List Msg)
    (turnNumber : ℕ) : Bool × Option String × Option String :=
  if maxTurns ≤ turnNumber then
    (true, some "max_turns",
     some ("Reached maximum of " ++ toString maxTurns ++ " turns"))
  else if turnNumber < 2 then (false, none, none)
  else
    let u := (lastUserContent history).getD ""
    if u != "" && anyPhrase satisfactionIndicators u
        && anyPhrase closingIndicators u then
      (true, some "satisfaction", some "User expressed satisfaction and closure")
    else if u != "" && anyPhrase satisfactionIndicators u && decide (3 ≤ turnNumber) then
      (true, some "satisfaction", some "User expressed thanks after productive exchange")
    else if u != "" && anyPhrase escalationPhrases u then
      (true, some "escalation", some "User requested to speak with human agent")
    else if 4 ≤ turnNumber && (checkStalemate history).1 then
      (true, some "stalemate", (checkStalemate history).2)
    else if persona.conversation_parameters.max_patience_turns < turnNumber then
      (true, some "patience_exceeded",
       some ("Exceeded " ++ persona.name ++ "'s patience limit"))
    else (false, none, none)

/-- A concrete persona (shaped after the example in `persona/models.py`). -/
def alexPersona : Persona :=
  { id := "persona_001_frustrated_commuter"
    name := "Alex Chen"
    conversation_parameters :=
      { max_patience_turns := 4
        escalation_threshold := 2
        tech_literacy := "moderate" }
    seed_utterance := "Signal keeps dropping on my train." }

/-- A user message free of every phrase the termination checker reacts to
(satisfaction, escalation, repetition, frustration); argument is the
lowercased content. -/
def cleanUserMsg (s : String) : Bool :=
  !(anyPhrase satisfactionIndicators s) && !(anyPhrase escalationPhrases s)
    && !(anyPhrase repetitionIndicators s) && !(anyPhrase frustrationWords s)

/-- A history in which no satisfaction/escalation/stalemate phrase ever
appears in a user message. -/
def cleanHistory (h : List Msg) : Bool :=
  h.all (fun m => m.role != "user" || cleanUserMsg (lowerStr m.content))

end Fyp

namespace Fyp

theorem cleanUserMsg_of_lastUserContent {h : List Msg} {s : String}
    (hclean : cleanHistory h = true) (hu : lastUserContent h = some s) :
    cleanUserMsg s = true := by
  unfold lastUserContent at hu
  cases hfind : h.reverse.find? (fun m => m.role == "user") with
  | none => rw [hfind] at hu; simp at hu
  | some m =>
    rw [hfind] at hu
    simp only [Option.map_some', Option.some.injEq] at hu
    have hrole := List.find?_some hfind
    have hmem : m ∈ h := List.mem_reverse.mp (List.mem_of_find?_eq_some hfind)
    unfold cleanHistory at hclean
    rw [List.all_eq_true] at hclean
    have hm := hclean m hmem
    have hr : m.role = "user" := by simpa using hrole
    simp [hr] at hm
    rw [← hu]
    exact hm

theorem checkStalemate_false_of_clean {h : List Msg}
    (hclean : cleanHistory h = true) : (checkStalemate h).1 = false := by
  unfold checkStalemate
  have hclean' : ∀ s ∈ (h.filter (fun m => m.role == "user")).map
      (fun m => lowerStr m.content), cleanUserMsg s = true := by
    intro s hs
    simp only [List.mem_map, List.mem_filter] at hs
    obtain ⟨m, ⟨hmem, hrole⟩, rfl⟩ := hs
    unfold cleanHistory at hclean
    rw [List.all_eq_true] at hclean
    have hm := hclean m hmem
    have hr : m.role = "user" := by simpa using hrole
    simpa [hr] using hm
  set userMessages :=
    (h.filter (fun m => m.role == "user")).map (fun m => lowerStr m.content)
    with hum
  by_cases hl : userMessages.length < 3
  · simp [hl]
  · rw [if_neg hl]
    have hrep : (userMessages.drop (userMessages.length - 3)).countP
        (fun msg => anyPhrase repetitionIndicators msg) = 0 := by
      rw [List.countP_eq_zero]
      intro a ha
      have hca := hclean' a (List.drop_subset _ _ ha)
      simp only [cleanUserMsg, Bool.and_eq_true, Bool.not_eq_true'] at hca
      simp [hca.1.2]
    have hfr : anyPhrase frustrationWords
        ((userMessages.drop (userMessages.length - 3)).getLastD "") = false := by
      have hmem := List.getLastD_mem_cons
        (userMessages.drop (userMessages.length - 3)) ""
      rcases List.mem_cons.mp hmem with heq | hmem2
      · rw [heq]; decide
      · have hca := hclean' _ (List.drop_subset _ _ hmem2)
        simp only [cleanUserMsg, Bool.and_eq_true, Bool.not_eq_true'] at hca
        exact hca.2
    rw [List.getLastD_eq_getLast?] at hfr
    simp [hrep, hfr]

/-- On a clean history, once the content checks are reachable the only
termination rule left is the persona patience cap. -/
theorem shouldTerminate_of_clean (maxTurns : ℕ) (p : Persona)
    (history : List Msg) (t : ℕ) (h2 : 2 ≤ t) (hmax : t < maxTurns)
    (hclean : cleanHistory history = true) :
    shouldTerminate maxTurns p history t =
      if p.conversation_parameters.max_patience_turns < t then
        (true, some "patience_exceeded",
         some ("Exceeded " ++ p.name ++ "'s patience limit"))
      else (false, none, none) := by
  unfold shouldTerminate
  rw [if_neg (by omega), if_neg (by omega)]
  have hst := checkStalemate_false_of_clean hclean
  cases hu : lastUserContent history with
  | none => simp [hu, hst]
  | some s =>
    have hcs := cleanUserMsg_of_lastUserContent hclean hu
    simp only [cleanUserMsg, Bool.and_eq_true, Bool.not_eq_true'] at hcs
    simp [hu, hst, hcs.1.1.1, hcs.1.1.2]

/-- C4: whenever `turn_number` is at least the configured `max_turns` cap,
`should_terminate` returns `True` with reason `max_turns` (and the cap's
detail string), for every persona and every history — the highest-priority
rule. -/
theorem shouldTerminate_max_turns (maxTurns : ℕ) (p : Persona)
    (history : List Msg) (turnNumber : ℕ) (h : maxTurns ≤ turnNumber) :
    shouldTerminate maxTurns p history turnNumber =
      (true, some "max_turns",
       some ("Reached maximum of " ++ toString maxTurns ++ " turns")) := by
  unfold shouldTerminate
  rw [if_pos h]

/-- Witness for C4 at `max_turns = 10`, `turn_number = 12`, empty history. -/
theorem shouldTerminate_max_turns_witness :
    shouldTerminate 10 alexPersona [] 12 =
      (true, some "max_turns", some "Reached maximum of 10 turns") := by
  have h := shouldTerminate_max_turns 10 alexPersona [] 12 (by decide)
  simpa using h

/-- A concrete four-message history containing no phrase the termination
checker reacts to. -/
def cleanHist4 : List Msg :=
  [⟨"user", "hello"⟩, ⟨"assistant", "hi, how can I help"⟩,
   ⟨"user", "what mobile plans do you offer"⟩,
   ⟨"assistant", "we offer several plans"⟩]

/-- C8 (amended): for a persona with `max_patience_turns = 4` and a history
in which no satisfaction/escalation/stalemate phrase ever appears in a user
message, `should_terminate` returns `False` at every turn below 5 and first
fires at turn 5 with reason `patience_exceeded` — provided the global
`max_turns` cap is greater than 5 (at cap exactly 5, still allowed by the
original claim's `> 4`, the `max_turns` rule fires first instead). -/
theorem shouldTerminate_patience_at_five (maxTurns : ℕ) (p : Persona)
    (history : List Msg) (hcap : 5 < maxTurns)
    (hp : p.conversation_parameters.max_patience_turns = 4)
    (hclean : cleanHistory history = true) :
    (∀ t, t < 5 → (shouldTerminate maxTurns p history t).1 = false) ∧
    shouldTerminate maxTurns p history 5 =
      (true, some "patience_exceeded",
       some ("Exceeded " ++ p.name ++ "'s patience limit")) := by
  constructor
  · intro t ht
    by_cases h2 : 2 ≤ t
    · rw [shouldTerminate_of_clean maxTurns p history t h2 (by omega) hclean,
        hp, if_neg (by omega)]
    · unfold shouldTerminate
      rw [if_neg (by omega), if_pos (by omega)]
  · rw [shouldTerminate_of_clean maxTurns p history 5 (by omega) (by omega)
      hclean, hp, if_pos (by omega)]

/-- Witness for C8 at cap 10, persona patience 4, a concrete clean history:
no termination at turn 4, `patience_exceeded` at turn 5. -/
theorem shouldTerminate_patience_at_five_witness :
    (shouldTerminate 10 alexPersona cleanHist4 4).1 = false ∧
    shouldTerminate 10 alexPersona cleanHist4 5 =
      (true, some "patience_exceeded",
       some "Exceeded Alex Chen's patience limit") := by
  have h := shouldTerminate_patience_at_five 10 alexPersona cleanHist4
    (by decide) (by decide) (by decide)
  exact ⟨h.1 4 (by decide), h.2⟩

/-- C8 counterexample: with the global cap exactly 5 — which satisfies the
claim's premise `max_turns > 4` — turn 5 terminates with reason `max_turns`,
not `patience_exceeded`. -/
theorem shouldTerminate_patience_cex :
    4 < 5 ∧ cleanHistory cleanHist4 = true ∧
    alexPersona.conversation_parameters.max_patience_turns = 4 ∧
    (shouldTerminate 5 alexPersona cleanHist4 5).2.1 = some "max_turns" ∧
    (shouldTerminate 5 alexPersona cleanHist4 5).2.1 ≠ some "patience_exceeded" := by
  decide

/-- C2 (amended): if the most recent user message is exactly
`"That's all, thank you."`, then for every turn number with
`2 ≤ turn_number < max_turns` the checker returns `True` with reason
`satisfaction` and the closure detail string (at `turn_number ≥ max_turns`
the higher-priority `max_turns` rule fires instead, so satisfaction does not
hold for arbitrarily large turn numbers). -/
theorem shouldTerminate_thats_all (maxTurns : ℕ) (p : Persona)
    (history : List Msg) (turn : ℕ) (m : Msg)
    (hfind : history.reverse.find? (fun x => x.role == "user") = some m)
    (hc : m.content = "That's all, thank you.")
    (h2 : 2 ≤ turn) (hlt : turn < maxTurns) :
    shouldTerminate maxTurns p history turn =
      (true, some "satisfaction",
       some "User expressed satisfaction and closure") := by
  have hu : lastUserContent history =
      some (lowerStr "That's all, thank you.") := by
    simp [lastUserContent, hfind, hc]
  unfold shouldTerminate
  rw [if_neg (by omega), if_neg (by omega), hu]
  rfl

/-- A concrete history whose most recent user message is exactly
`"That's all, thank you."`. -/
def histThatsAll : List Msg :=
  [⟨"user", "I want to check my bill"⟩, ⟨"assistant", "here is your bill"⟩,
   ⟨"user", "That's all, thank you."⟩]

/-- Witness for C2 at turn 2 with cap 10. -/
theorem shouldTerminate_thats_all_witness :
    shouldTerminate 10 alexPersona histThatsAll 2 =
      (true, some "satisfaction",
       some "User expressed satisfaction and closure") :=
  shouldTerminate_thats_all 10 alexPersona histThatsAll 2
    ⟨"user", "That's all, thank you."⟩ (by decide) rfl (by decide) (by decide)

/-- C2 counterexample: at turn 10 with the checker's cap 10 (turn ≥ 2 and the
last user message exactly `"That's all, thank you."`), the reason is
`max_turns`, not `satisfaction` — the claim fails for large turn numbers. -/
theorem shouldTerminate_thats_all_cex :
    (shouldTerminate 10 alexPersona histThatsAll 10).2.1 = some "max_turns" ∧
    (shouldTerminate 10 alexPersona histThatsAll 10).2.1 ≠ some "satisfaction" := by
  decide

end Fyp

namespace Fyp

/-- `EvaluationScores` from `src/artifacts/models.py`, floats as rationals. -/
structure EvaluationScores where
  task_success : ℚ
  clarity : ℚ
  empathy : ℚ
  policy_compliance : ℚ
  overall_weighted : ℚ
  rationale : String
deriving Repr, DecidableEq

/-- One entry of the judge rubric's `dimensions` list. -/
structure RubricDimension where
  name : String
  weight : ℚ
  description : String
deriving Repr, DecidableEq

/-- `LLMJudge._default_rubric`. -/
def defaultRubric : List RubricDimension :=
  [⟨"task_success", 1/2,
    "Did the conversation meet the scenario's success criteria?"⟩,
   ⟨"clarity", 1/5,
    "Were responses clear and appropriate for the user's tech literacy?"⟩,
   ⟨"empathy", 1/5,
    "Was the tone appropriate for the user's emotional state?"⟩,
   ⟨"policy_compliance", 1/10, "Were there any policy violations?"⟩]

/-- `weights.get(name, default)` for the dict comprehension
`{dim["name"]: dim["weight"] for dim in rubric["dimensions"]}`; a Python
dict keeps the last binding for a repeated key, hence the reverse scan. -/
def weightOf (rubric : List RubricDimension) (name : String) (default : ℚ) : ℚ :=
  match rubric.reverse.find? (fun d => d.name == name) with
  | some d => d.weight
  | none => default

/-- Python `\s` on the ASCII range (space, tab, newline, carriage return,
vertical tab, form feed). -/
def isPySpace (c : Char) : Bool :=
  c == ' ' || c == '\t' || c == '\n' || c == '\r'
    || c.toNat == 11 || c.toNat == 12

/-- Numeric value of a digit run. -/
def digitsVal (ds : List Char) : ℕ :=
  ds.foldl (fun acc c => 10 * acc + (c.toNat - '0'.toNat)) 0

/-- Value of `float("<intPart>.<fracPart>")` as a rational. -/
def decimalVal (intPart fracPart : List Char) : ℚ :=
  (digitsVal intPart : ℚ) + (digitsVal fracPart : ℚ) / (10 : ℚ) ^ fracPart.length

/-- Greedy match of the regex group `[0-9]*\.?[0-9]+` at the head of `l`,
with Python's backtracking semantics: longest digit run, a following
`.digits` fragment if present, else the digit run alone. Returns the matched
group as its integer-part and fractional-part digits; a matched group is
always a valid `float(...)` input, so the `ValueError` branch of
`_extract_score` is unreachable. -/
def parseNumber (l : List Char) : Option (List Char × List Char) :=
  let d1 := l.takeWhile Char.isDigit
  let r1 := l.dropWhile Char.isDigit
  match r1 with
  | '.' :: r2 =>
    let d2 := r2.takeWhile Char.isDigit
    if d2 ≠ [] then some (d1, d2)
    else if d1 ≠ [] then some (d1, [])
    else none
  | _ => if d1 ≠ [] then some (d1, []) else none

/-- Attempt of the pattern `DIMENSION:\s*([0-9]*\.?[0-9]+)` anchored at the
head of `l` (both sides already lowercased for `re.IGNORECASE`). -/
def matchScoreAt (l : List Char) (dim : List Char) :
    Option (List Char × List Char) :=
  if (dim ++ [':']).isPrefixOf l then
    parseNumber ((l.drop (dim.length + 1)).dropWhile isPySpace)
  else none

/-- `re.search` for the score pattern: first position where the anchored
match succeeds. -/
def findScore (dim : List Char) : List Char → Option (List Char × List Char)
  | [] => none
  | c :: rest =>
    match matchScoreAt (c :: rest) dim with
    | some g => some g
    | none => findScore dim rest

/-- Python `min(a, b)` on two numbers (returns the first on ties). -/
def pyMin (a b : ℚ) : ℚ := if a ≤ b then a else b

/-- Python `max(a, b)` on two numbers (returns the first on ties). -/
def pyMax (a b : ℚ) : ℚ := if b ≤ a then a else b

/-- `LLMJudge._extract_score`: the matched group converted by `float(...)`
and clamped to `[0, 1]` by `max(0.0, min(1.0, score))`; `0.5` when the
pattern does not occur. -/
def extractScore (text : String) (dimension : String) : ℚ :=
  match findScore (lowerStr dimension).data (lowerStr text).data with
  | some g => pyMax 0 (pyMin 1 (decimalVal g.1 g.2))
  | none => 1/2

/-- `LLMJudge._parse_scores`: per-dimension extraction plus the locally
recomputed rubric-weighted overall score. -/
def parseScores (rubric : List RubricDimension) (evaluationText : String) :
    EvaluationScores :=
  let task_success := extractScore evaluationText "TASK_SUCCESS"
  let clarity := extractScore evaluationText "CLARITY"
  let empathy := extractScore evaluationText "EMPATHY"
  let policy_compliance := extractScore evaluationText "POLICY_COMPLIANCE"
  let overall :=
    task_success * weightOf rubric "task_success" (1/2) +
    clarity * weightOf rubric "clarity" (1/5) +
    empathy * weightOf rubric "empathy" (1/5) +
    policy_compliance * weightOf rubric "policy_compliance" (1/10)
  { task_success := task_success, clarity := clarity, empathy := empathy,
    policy_compliance := policy_compliance, overall_weighted := overall,
    rationale := evaluationText }

/-- `LLMJudge.evaluate` with the generative-backend call modelled as an
explicit `Except`-valued input: a successful completion is parsed, any
backend exception is converted to all-zero scores with the error message in
the rationale. -/
def evaluate (rubric : List RubricDimension)
    (backendResult : Except String String) : EvaluationScores :=
  match backendResult with
  | .ok text => parseScores rubric text
  | .error e =>
    { task_success := 0, clarity := 0, empathy := 0, policy_compliance := 0,
      overall_weighted := 0,
      rationale := "Error during evaluation: " ++ e }

end Fyp

namespace Fyp

theorem isPrefixOf_self (l : List Char) : l.isPrefixOf l = true := by
  induction l with
  | nil => rfl
  | cons c t ih => simp [ih]

theorem containsSub_append_left (s p : List Char) :
    containsSub s (p ++ s) = true := by
  induction p with
  | nil =>
    cases s with
    | nil => rfl
    | cons c t => simp [containsSub, isPrefixOf_self]
  | cons c t ih => simp [containsSub, ih]

/-- C5: on any backend exception, `LLMJudge.evaluate` returns an
`EvaluationScores` whose four dimension scores and overall are all `0.0`
and whose rationale contains the error message, instead of propagating. -/
theorem evaluate_backend_error (rubric : List RubricDimension) (e : String) :
    evaluate rubric (Except.error e) =
      { task_success := 0, clarity := 0, empathy := 0, policy_compliance := 0,
        overall_weighted := 0,
        rationale := "Error during evaluation: " ++ e } ∧
    strContains (evaluate rubric (Except.error e)).rationale e = true := by
  refine ⟨rfl, ?_⟩
  show containsSub e.data ("Error during evaluation: " ++ e).data = true
  rw [String.data_append]
  exact containsSub_append_left _ _

/-- C3 (amended): whenever the four extracted dimension scores are
`(0.8, 0.6, 1.0, 0.5)` under the rubric with weights
`{task_success: 0.5, clarity: 0.2, empathy: 0.2, policy_compliance: 0.1}`,
the locally recomputed `overall_weighted` is
`0.8*0.5 + 0.6*0.2 + 1.0*0.2 + 0.5*0.1 = 0.77` — the claim's stated total
`0.81` is an arithmetic slip. -/
theorem parseScores_weighted_sum (text : String)
    (h1 : extractScore text "TASK_SUCCESS" = 4/5)
    (h2 : extractScore text "CLARITY" = 3/5)
    (h3 : extractScore text "EMPATHY" = 1)
    (h4 : extractScore text "POLICY_COMPLIANCE" = 1/2) :
    (parseScores defaultRubric text).overall_weighted = 77/100 := by
  have w1 : weightOf defaultRubric "task_success" (1/2) = 1/2 := rfl
  have w2 : weightOf defaultRubric "clarity" (1/5) = 1/5 := rfl
  have w3 : weightOf defaultRubric "empathy" (1/5) = 1/5 := rfl
  have w4 : weightOf defaultRubric "policy_compliance" (1/10) = 1/10 := rfl
  simp only [parseScores, h1, h2, h3, h4, w1, w2, w3, w4]
  norm_num

/-- A well-formatted judge response carrying scores 0.8/0.6/1.0/0.5. -/
def sampleJudgeText : String :=
  "TASK_SUCCESS: 0.8\nRationale: resolved the request\n\n" ++
  "CLARITY: 0.6\nRationale: somewhat wordy\n\n" ++
  "EMPATHY: 1.0\nRationale: warm tone\n\n" ++
  "POLICY_COMPLIANCE: 0.5\nRationale: minor issues\n\n" ++
  "OVERALL ASSESSMENT:\nSolid conversation."

theorem extractScore_eq_of_token (text dimension : String)
    (d1 d2 : List Char)
    (h : findScore (lowerStr dimension).data (lowerStr text).data =
      some (d1, d2)) :
    extractScore text dimension = pyMax 0 (pyMin 1 (decimalVal d1 d2)) := by
  unfold extractScore
  rw [h]

theorem sample_task_success :
    extractScore sampleJudgeText "TASK_SUCCESS" = 4/5 := by
  rw [extractScore_eq_of_token sampleJudgeText "TASK_SUCCESS" ['0'] ['8']
    (by decide)]
  have hd : decimalVal ['0'] ['8'] = 4/5 := by
    have e1 : digitsVal ['0'] = 0 := by decide
    have e2 : digitsVal ['8'] = 8 := by decide
    rw [decimalVal, e1, e2]
    norm_num
  rw [hd, pyMin, pyMax]
  norm_num

theorem sample_clarity :
    extractScore sampleJudgeText "CLARITY" = 3/5 := by
  rw [extractScore_eq_of_token sampleJudgeText "CLARITY" ['0'] ['6']
    (by decide)]
  have hd : decimalVal ['0'] ['6'] = 3/5 := by
    have e1 : digitsVal ['0'] = 0 := by decide
    have e2 : digitsVal ['6'] = 6 := by decide
    rw [decimalVal, e1, e2]
    norm_num
  rw [hd, pyMin, pyMax]
  norm_num

theorem sample_empathy :
    extractScore sampleJudgeText "EMPATHY" = 1 := by
  rw [extractScore_eq_of_token sampleJudgeText "EMPATHY" ['1'] ['0']
    (by decide)]
  have hd : decimalVal ['1'] ['0'] = 1 := by
    have e1 : digitsVal ['1'] = 1 := by decide
    have e2 : digitsVal ['0'] = 0 := by decide
    rw [decimalVal, e1, e2]
    norm_num
  rw [hd, pyMin, pyMax]
  norm_num

theorem sample_policy_compliance :
    extractScore sampleJudgeText "POLICY_COMPLIANCE" = 1/2 := by
  rw [extractScore_eq_of_token sampleJudgeText "POLICY_COMPLIANCE"
    ['0'] ['5'] (by decide)]
  have hd : decimalVal ['0'] ['5'] = 1/2 := by
    have e1 : digitsVal ['0'] = 0 := by decide
    have e2 : digitsVal ['5'] = 5 := by decide
    rw [decimalVal, e1, e2]
    norm_num
  rw [hd, pyMin, pyMax]
  norm_num

/-- Witness for C3 on a concrete judge response carrying 0.8/0.6/1.0/0.5. -/
theorem parseScores_weighted_sum_witness :
    (parseScores defaultRubric sampleJudgeText).overall_weighted = 77/100 :=
  parseScores_weighted_sum sampleJudgeText sample_task_success
    sample_clarity sample_empathy sample_policy_compliance

/-- C3 counterexample: on a judge response with scores
`(0.8, 0.6, 1.0, 0.5)` and the default rubric, the locally recomputed
overall is `0.77`, not the `0.81` the claim states. -/
theorem parseScores_weighted_081_cex :
    (parseScores defaultRubric sampleJudgeText).overall_weighted ≠ 81/100 ∧
    (parseScores defaultRubric sampleJudgeText).overall_weighted = 77/100 := by
  have w1 : weightOf defaultRubric "task_success" (1/2) = 1/2 := rfl
  have w2 : weightOf defaultRubric "clarity" (1/5) = 1/5 := rfl
  have w3 : weightOf defaultRubric "empathy" (1/5) = 1/5 := rfl
  have w4 : weightOf defaultRubric "policy_compliance" (1/10) = 1/10 := rfl
  constructor <;>
    · simp only [parseScores, sample_task_success, sample_clarity,
        sample_empathy, sample_policy_compliance, w1, w2, w3, w4]
      norm_num

theorem pyClamp_bounds (q : ℚ) :
    0 ≤ pyMax 0 (pyMin 1 q) ∧ pyMax 0 (pyMin 1 q) ≤ 1 := by
  unfold pyMax pyMin
  split_ifs <;> constructor <;> linarith

/-- C7: for every judge response text and dimension, a text with no match
for the dimension's score pattern extracts exactly `0.5`, and the extracted
score always lies in `[0.0, 1.0]` (matched values are clamped there). -/
theorem extractScore_default_and_clamped (text dimension : String) :
    (findScore (lowerStr dimension).data (lowerStr text).data = none →
      extractScore text dimension = 1/2) ∧
    0 ≤ extractScore text dimension ∧ extractScore text dimension ≤ 1 := by
  unfold extractScore
  cases h : findScore (lowerStr dimension).data (lowerStr text).data with
  | none => exact ⟨fun _ => rfl, by norm_num, by norm_num⟩
  | some q =>
    obtain ⟨d1, d2⟩ := q
    exact ⟨fun hc => by simp at hc, (pyClamp_bounds _).1, (pyClamp_bounds _).2⟩

/-- Witness for C7 on a text containing no score line. -/
theorem extractScore_default_witness :
    extractScore "no scores here" "TASK_SUCCESS" = 1/2 ∧
    0 ≤ extractScore "no scores here" "TASK_SUCCESS" ∧
    extractScore "no scores here" "TASK_SUCCESS" ≤ 1 := by
  have h := extractScore_default_and_clamped "no scores here" "TASK_SUCCESS"
  exact ⟨h.1 (by decide), h.2⟩

end Fyp

namespace Fyp

/-- `ConversationTurn` from `src/artifacts/models.py` (timestamp and
metadata, which no evaluated check reads, omitted). -/
structure Turn where
  turn_number : ℕ
  speaker : String
  message : String
deriving Repr, DecidableEq

/-- `HeuristicCheckResult` from `src/artifacts/models.py`. -/
structure HeuristicCheckResult where
  check_name : String
  passed : Bool
  details : String
  severity : String
deriving Repr, DecidableEq

/-- `VALID_PLANS` from `src/evaluator/heuristics.py`. -/
def VALID_PLANS : List String :=
  ["8", "15", "25", "32", "42", "55", "70", "85"]

/-- The suffix alternatives of the price regex
`£(\d+)|(\d+)\s*(?:per month|monthly|\/month|\/mo)`, in alternation order. -/
def priceSuffixes : List String := ["per month", "monthly", "/month", "/mo"]

/-- `re.finditer` over the price pattern (text already lowercased for
`re.IGNORECASE`): at each position try `£` followed by digits, else a digit
run followed by optional whitespace and a suffix alternative; a match is
consumed, a failed position advances by one character. Fuel is the text
length, which every step strictly decreases below. -/
def extractPricesGo : ℕ → List Char → List String
  | 0, _ => []
  | _ + 1, [] => []
  | n + 1, c :: rest =>
    if c == '£' then
      let ds := rest.takeWhile Char.isDigit
      if ds.isEmpty then extractPricesGo n rest
      else String.mk ds :: extractPricesGo n (rest.dropWhile Char.isDigit)
    else if c.isDigit then
      let ds := (c :: rest).takeWhile Char.isDigit
      let afterWs := ((c :: rest).dropWhile Char.isDigit).dropWhile isPySpace
      match priceSuffixes.find? (fun suf => suf.data.isPrefixOf afterWs) with
      | some suf => String.mk ds :: extractPricesGo n (afterWs.drop suf.length)
      | none => extractPricesGo n rest
    else extractPricesGo n rest

/-- All price tokens mentioned in a text, in match order. -/
def extractPrices (l : List Char) : List String := extractPricesGo l.length l

/-- Lexicographic sort, the semantics of Python `sorted` on strings. -/
def sortStrings (l : List String) : List String :=
  l.mergeSort (fun a b => decide (a ≤ b))

/-- The assistant side of a transcript joined by single spaces
(`full_text` in `_check_hallucinated_plans`). -/
def assistantFullText (transcript : List Turn) : String :=
  String.intercalate " "
    ((transcript.filter (fun t => t.speaker == "assistant")).map
      (fun t => t.message))

/-- `HeuristicEvaluator._check_hallucinated_plans`: every mentioned price
must be in the plan allow-list, otherwise a `critical` failure. The set of
mentioned prices is modelled as the deduplicated match list. -/
def checkHallucinatedPlans (transcript : List Turn) : HeuristicCheckResult :=
  let mentionedPrices :=
    (extractPrices (lowerStr (assistantFullText transcript)).data).dedup
  let invalidPrices :=
    mentionedPrices.filter (fun p => !(VALID_PLANS.contains p))
  if invalidPrices ≠ [] then
    { check_name := "no_hallucinated_plans", passed := false,
      details := "Mentioned invalid plan prices: " ++
        String.intercalate ", " (sortStrings invalidPrices),
      severity := "critical" }
  else
    { check_name := "no_hallucinated_plans", passed := true,
      details := "All mentioned prices are valid: " ++
        String.intercalate ", " (sortStrings mentionedPrices),
      severity := "info" }

end Fyp

namespace Fyp

/-- C9: the no-hallucinated-plans check passes (severity `info`) on every
transcript whose assistant messages mention only the price 8 (which is in
the allow-list), and fails with severity `critical` on a transcript whose
assistant messages mention `£99 per month` (99 is absent from the
allow-list). -/
theorem checkHallucinatedPlans_spec :
    (∀ transcript : List Turn,
      (extractPrices (lowerStr (assistantFullText transcript)).data).all
        (fun p => p == "8") = true →
      (checkHallucinatedPlans transcript).passed = true ∧
      (checkHallucinatedPlans transcript).severity = "info") ∧
    (checkHallucinatedPlans
      [⟨1, "assistant", "The plan costs £99 per month."⟩]).passed = false ∧
    (checkHallucinatedPlans
      [⟨1, "assistant", "The plan costs £99 per month."⟩]).severity =
        "critical" := by
  refine ⟨?_, by decide, by decide⟩
  intro transcript hall
  unfold checkHallucinatedPlans
  have hfil :
      (extractPrices (lowerStr (assistantFullText transcript)).data).dedup.filter
        (fun p => !(VALID_PLANS.contains p)) = [] := by
    rw [List.filter_eq_nil_iff]
    intro a ha
    have ha8 : a = "8" := by
      have := List.all_eq_true.mp hall a (List.dedup_subset _ ha)
      simpa using this
    rw [ha8]
    decide
  simp only [hfil]
  simp

/-- Witness for C9 on a transcript mentioning only `£8 per month`. -/
theorem checkHallucinatedPlans_witness :
    (checkHallucinatedPlans
      [⟨1, "assistant", "Our Lite plan is £8 per month."⟩]).passed = true ∧
    (checkHallucinatedPlans
      [⟨1, "assistant", "Our Lite plan is £8 per month."⟩]).severity =
        "info" :=
  checkHallucinatedPlans_spec.1
    [⟨1, "assistant", "Our Lite plan is £8 per month."⟩] (by decide)

end Fyp

namespace Fyp

/-- `TerminationInfo` from `src/artifacts/models.py` (`details` is stored
with the empty string for Python `None`). -/
structure TermInfo where
  reason : String
  turn_number : ℕ
  details : String
deriving Repr, DecidableEq

/-- `HeuristicResults` from `src/artifacts/models.py`. -/
structure HeuristicResults where
  checks : List HeuristicCheckResult
  all_passed : Bool
  critical_failures : List String
deriving Repr, DecidableEq

/-- `ConversationRun` from `src/artifacts/models.py` (identifier, timing and
config-snapshot fields not read by `_compute_summary` are omitted). -/
structure ConversationRun where
  run_id : String
  persona_id : String
  scenario_id : String
  variant : String
  transcript : List Turn
  termination : TermInfo
  llm_evaluation : EvaluationScores
  heuristic_results : HeuristicResults
  total_turns : ℕ
  average_latency_ms : ℚ
deriving Repr, DecidableEq

/-- `SummaryStatistics` from `src/artifacts/models.py`; Python dicts are
insertion-ordered association lists. -/
structure SummaryStatistics where
  total_conversations : ℕ
  successful_conversations : ℕ
  avg_task_success : ℚ
  avg_clarity : ℚ
  avg_empathy : ℚ
  avg_policy_compliance : ℚ
  avg_overall_score : ℚ
  termination_reasons : List (String × ℕ)
  heuristic_pass_rate : ℚ
  critical_failure_rate : ℚ
  avg_conversation_length : ℚ
  avg_latency_ms : ℚ
  scores_by_persona : Option (List (String × ℚ))
  scores_by_scenario : Option (List (String × ℚ))
deriving Repr, DecidableEq

/-- One `defaultdict(int)` increment. -/
def bumpCount (m : List (String × ℕ)) (k : String) : List (String × ℕ) :=
  if m.any (fun p => p.1 == k) then
    m.map (fun p => if p.1 == k then (p.1, p.2 + 1) else p)
  else m ++ [(k, 1)]

/-- One `defaultdict(list)` append. -/
def pushScore (m : List (String × List ℚ)) (k : String) (v : ℚ) :
    List (String × List ℚ) :=
  if m.any (fun p => p.1 == k) then
    m.map (fun p => if p.1 == k then (p.1, p.2 ++ [v]) else p)
  else m ++ [(k, [v])]

/-- The overall scores grouped by a key (`scores_by_persona` /
`scores_by_scenario` accumulation loops). -/
def groupScores (key : ConversationRun → String)
    (conversations : List ConversationRun) : List (String × List ℚ) :=
  conversations.foldl
    (fun m conv => pushScore m (key conv) conv.llm_evaluation.overall_weighted)
    []

/-- Per-key averages of grouped scores. -/
def avgScores (g : List (String × List ℚ)) : List (String × ℚ) :=
  g.map (fun p => (p.1, p.2.sum / (p.2.length : ℚ)))

/-- `ExperimentRunner._compute_summary`: the zero default for an empty
conversation list, plain arithmetic means otherwise. -/
def computeSummary (conversations : List ConversationRun) : SummaryStatistics :=
  match conversations with
  | [] =>
    { total_conversations := 0, successful_conversations := 0,
      avg_task_success := 0, avg_clarity := 0, avg_empathy := 0,
      avg_policy_compliance := 0, avg_overall_score := 0,
      termination_reasons := [], heuristic_pass_rate := 0,
      critical_failure_rate := 0, avg_conversation_length := 0,
      avg_latency_ms := 0, scores_by_persona := none,
      scores_by_scenario := none }
  | _ :: _ =>
    let total : ℚ := (conversations.length : ℚ)
    { total_conversations := conversations.length,
      successful_conversations :=
        conversations.countP (fun conv =>
          decide ((7 : ℚ)/10 ≤ conv.llm_evaluation.task_success)),
      avg_task_success :=
        (conversations.map (fun c => c.llm_evaluation.task_success)).sum / total,
      avg_clarity :=
        (conversations.map (fun c => c.llm_evaluation.clarity)).sum / total,
      avg_empathy :=
        (conversations.map (fun c => c.llm_evaluation.empathy)).sum / total,
      avg_policy_compliance :=
        (conversations.map (fun c => c.llm_evaluation.policy_compliance)).sum
          / total,
      avg_overall_score :=
        (conversations.map (fun c => c.llm_evaluation.overall_weighted)).sum
          / total,
      termination_reasons :=
        conversations.foldl (fun m conv => bumpCount m conv.termination.reason)
          [],
      heuristic_pass_rate :=
        (conversations.countP (fun c => c.heuristic_results.all_passed) : ℚ)
          / total,
      critical_failure_rate :=
        (conversations.countP
          (fun c => !(c.heuristic_results.critical_failures.isEmpty)) : ℚ)
          / total,
      avg_conversation_length :=
        (conversations.map (fun c => (c.total_turns : ℚ))).sum / total,
      avg_latency_ms :=
        (conversations.map (fun c => c.average_latency_ms)).sum / total,
      scores_by_persona :=
        some (avgScores (groupScores (fun c => c.persona_id) conversations)),
      scores_by_scenario :=
        some (avgScores (groupScores (fun c => c.scenario_id) conversations)) }

end Fyp

namespace Fyp

/-- C6: on the empty conversation list the summary is the explicit all-zero
record (defined for every input, hence no exception and no NaN — scores are
exact rationals), and on every input list `total_conversations` equals the
list's length. -/
theorem computeSummary_empty_and_total :
    computeSummary [] =
      { total_conversations := 0, successful_conversations := 0,
        avg_task_success := 0, avg_clarity := 0, avg_empathy := 0,
        avg_policy_compliance := 0, avg_overall_score := 0,
        termination_reasons := [], heuristic_pass_rate := 0,
        critical_failure_rate := 0, avg_conversation_length := 0,
        avg_latency_ms := 0, scores_by_persona := none,
        scores_by_scenario := none } ∧
    ∀ conversations : List ConversationRun,
      (computeSummary conversations).total_conversations =
        conversations.length := by
  refine ⟨rfl, ?_⟩
  intro conversations
  cases conversations with
  | nil => rfl
  | cons a t => rfl

end Fyp

namespace Fyp

/-- Round half to even, the semantics of Python's builtin `round`. -/
def roundHalfEven (x : ℚ) : ℤ :=
  let f := ⌊x⌋
  if x - f < 1/2 then f
  else if (1 : ℚ)/2 < x - f then f + 1
  else if f % 2 = 0 then f else f + 1

/-- Python `round(x, ndigits)`. -/
def roundTo (ndigits : ℕ) (x : ℚ) : ℚ :=
  ((roundHalfEven (x * 10 ^ ndigits) : ℚ)) / 10 ^ ndigits

/-- One dimension's entry of the comparison dict built by
`_compare_ratings`. -/
structure DimComparison where
  laj : ℚ
  human : Option ℚ
  delta : Option ℚ
deriving Repr, DecidableEq

/-- One dimension of `_compare_ratings`: the judge score is rescaled by
`round(score * 4 + 1, 1)`; the delta is `round(laj - human, 2)` guarded by
Python truthiness of the human rating (`None` and `0` give no delta). -/
def compareDim (score : ℚ) (human : Option ℚ) : DimComparison :=
  let laj := roundTo 1 (score * 4 + 1)
  { laj := laj, human := human,
    delta :=
      match human with
      | some h => if h ≠ 0 then some (roundTo 2 (laj - h)) else none
      | none => none }

/-- `_compare_ratings` from `evaluate_human_transcripts.py`: task_success,
clarity and empathy are each compared by `compareDim`. -/
def compareRatings (scores : EvaluationScores)
    (humanTaskSuccess humanClarity humanEmpathy : Option ℚ) :
    DimComparison × DimComparison × DimComparison :=
  (compareDim scores.task_success humanTaskSuccess,
   compareDim scores.clarity humanClarity,
   compareDim scores.empathy humanEmpathy)

end Fyp

namespace Fyp

/-- C10 (amended): the judge score is rescaled by `round(s*4+1, 1)` (one
decimal) and the delta is `round(rescaled - human, 2)`; for human rating 4
and judge score 0.9 this gives rescaled value 4.6 and delta +0.6, exactly as
the claim's example states. -/
theorem compareDim_formula (score : ℚ) (h : ℚ) (hne : h ≠ 0) :
    (compareDim score (some h)).laj = roundTo 1 (score * 4 + 1) ∧
    (compareDim score (some h)).delta =
      some (roundTo 2 (roundTo 1 (score * 4 + 1) - h)) ∧
    (compareDim (9/10) (some 4)).laj = 46/10 ∧
    (compareDim (9/10) (some 4)).delta = some (6/10) := by
  refine ⟨rfl, by simp [compareDim, hne], ?_, ?_⟩
  · show roundTo 1 ((9 : ℚ)/10 * 4 + 1) = 46/10
    norm_num [roundTo, roundHalfEven]
  · show (if (4 : ℚ) ≠ 0 then
        some (roundTo 2 (roundTo 1 ((9 : ℚ)/10 * 4 + 1) - 4)) else none) =
      some (6/10)
    norm_num [roundTo, roundHalfEven]

/-- Witness for C10 at human rating 4 and judge score 0.9. -/
theorem compareDim_formula_witness :
    (compareDim (9/10) (some 4)).laj = 46/10 ∧
    (compareDim (9/10) (some 4)).delta = some (6/10) := by
  have h := compareDim_formula (9/10) 4 (by norm_num)
  exact ⟨h.2.2.1, h.2.2.2⟩

/-- C10 counterexample: the code rounds the rescaled value to one decimal,
so for judge score 0.33 the stored value is 2.3, not `0.33*4+1 = 2.32` —
the claim's unrounded formula does not hold for every score. -/
theorem compareDim_rounding_cex :
    (compareDim (33/100) (some 4)).laj ≠ (33 : ℚ)/100 * 4 + 1 ∧
    (compareDim (33/100) (some 4)).laj = 23/10 := by
  constructor <;>
    · show _
      norm_num [compareDim, roundTo, roundHalfEven]

end Fyp

namespace Fyp

/-- Result of `ConversationOrchestrator.run_conversation` (the dict it
returns; session and timing strings omitted). -/
structure RunResult where
  transcript : List Turn
  termination : TermInfo
  total_turns : ℕ
  average_latency_ms : ℚ
deriving Repr, DecidableEq

/-- `sum(latencies) / len(latencies) if latencies else 0`. -/
def avgLatency (latencies : List ℚ) : ℚ :=
  if latencies.isEmpty then 0 else latencies.sum / (latencies.length : ℚ)

/-- The chat-client call of one loop iteration: on success the reply and the
latency appended to the list, on exception the placeholder assistant message
`[ERROR: ...]` with latency 0 recorded in the turn but excluded from the
latency list. -/
def apiStep (api : ℕ → String → Except String (String × ℚ)) (t : ℕ)
    (userMessage : String) (latencies : List ℚ) : String × List ℚ :=
  match api t userMessage with
  | .ok r => (r.1, latencies ++ [r.2])
  | .error e => ("[ERROR: " ++ e ++ "]", latencies)

/-- The `while True` loop of `run_conversation`. External calls are explicit
inputs: `sim t` is the user simulator at turn `t` (an exception is fatal and
lands in the orchestrator's catch-all, reason `"error"`); `api t msg` is the
chat client (an exception is caught locally via `apiStep`). Fuel is spent
once per iteration; `shouldTerminate` fires at the latest once `turnNumber`
reaches `maxTurns`, so fuel `maxTurns + 1` from turn 0 is never exhausted —
the fuel-out branch mirrors the catch-all error path. -/
def runLoop (sim : ℕ → Except String String)
    (api : ℕ → String → Except String (String × ℚ))
    (maxTurns : ℕ) (persona : Persona) :
    ℕ → List Turn → List Msg → List ℚ → ℕ → RunResult
  | 0, transcript, _, latencies, turnNumber =>
    { transcript := transcript,
      termination := ⟨"error", turnNumber, "Error occurred: out of fuel"⟩,
      total_turns := turnNumber,
      average_latency_ms := avgLatency latencies }
  | fuel + 1, transcript, history, latencies, turnNumber =>
    match sim (turnNumber + 1) with
    | .error e =>
      { transcript := transcript,
        termination := ⟨"error", turnNumber + 1, "Error occurred: " ++ e⟩,
        total_turns := turnNumber + 1,
        average_latency_ms := avgLatency latencies }
    | .ok userMessage =>
      match shouldTerminate maxTurns persona
          ((history ++ [⟨"user", userMessage⟩]) ++
            [⟨"assistant",
              (apiStep api (turnNumber + 1) userMessage latencies).1⟩])
          (turnNumber + 1) with
      | (true, reason, details) =>
        { transcript :=
            (transcript ++ [⟨turnNumber + 1, "user", userMessage⟩]) ++
              [⟨turnNumber + 1, "assistant",
                (apiStep api (turnNumber + 1) userMessage latencies).1⟩],
          termination := ⟨reason.getD "", turnNumber + 1, details.getD ""⟩,
          total_turns := turnNumber + 1,
          average_latency_ms :=
            avgLatency (apiStep api (turnNumber + 1) userMessage latencies).2 }
      | (false, _, _) =>
        runLoop sim api maxTurns persona fuel
          ((transcript ++ [⟨turnNumber + 1, "user", userMessage⟩]) ++
            [⟨turnNumber + 1, "assistant",
              (apiStep api (turnNumber + 1) userMessage latencies).1⟩])
          ((history ++ [⟨"user", userMessage⟩]) ++
            [⟨"assistant",
              (apiStep api (turnNumber + 1) userMessage latencies).1⟩])
          (apiStep api (turnNumber + 1) userMessage latencies).2
          (turnNumber + 1)

/-- `run_conversation`: start at turn 0 with empty transcript, history and
latency list. -/
def runConversation (sim : ℕ → Except String String)
    (api : ℕ → String → Except String (String × ℚ))
    (maxTurns : ℕ) (persona : Persona) : RunResult :=
  runLoop sim api maxTurns persona (maxTurns + 1) [] [] [] 0

/-- The maximum `turn_number` present in a transcript (0 when empty). -/
def maxTurnNumber (transcript : List Turn) : ℕ :=
  transcript.foldr (fun t m => max t.turn_number m) 0

/-- The C1 invariant on a finished run: `total_turns` equals the maximum
turn number in the transcript and every turn from 1 to `total_turns` has a
user entry. -/
def coversTurns (transcript : List Turn) (n : ℕ) : Bool :=
  maxTurnNumber transcript == n &&
  (List.range n).all (fun i =>
    transcript.any (fun t => t.turn_number == i + 1 && t.speaker == "user"))

end Fyp

namespace Fyp

theorem foldr_max_init (tr : List Turn) (b : ℕ) :
    tr.foldr (fun t m => max t.turn_number m) b =
      max (tr.foldr (fun t m => max t.turn_number m) 0) b := by
  induction tr with
  | nil => simp
  | cons t ts ih =>
    simp only [List.foldr_cons, ih]
    exact (Nat.max_assoc ..).symm

theorem maxTurnNumber_append_singleton (l : List Turn) (t : Turn) :
    maxTurnNumber (l ++ [t]) = max (maxTurnNumber l) t.turn_number := by
  unfold maxTurnNumber
  rw [List.foldr_append, List.foldr_cons, List.foldr_nil, foldr_max_init]
  simp

theorem coversTurns_extend (tr : List Turn) (n : ℕ) (u a : String)
    (h : coversTurns tr n = true) :
    coversTurns ((tr ++ [⟨n + 1, "user", u⟩]) ++ [⟨n + 1, "assistant", a⟩])
      (n + 1) = true := by
  unfold coversTurns at h ⊢
  rw [Bool.and_eq_true] at h ⊢
  obtain ⟨hmax, hall⟩ := h
  have hmax' : maxTurnNumber tr = n := by simpa using hmax
  constructor
  · rw [maxTurnNumber_append_singleton, maxTurnNumber_append_singleton, hmax']
    simp [Nat.max_assoc]
  · rw [List.range_succ, List.all_append, Bool.and_eq_true]
    constructor
    · rw [List.all_eq_true]
      intro i hi
      have hany := List.all_eq_true.mp hall i hi
      rw [List.any_append, List.any_append]
      simp only [hany, Bool.true_or]
    · simp

theorem runLoop_succ_of_error (sim : ℕ → Except String String)
    (api : ℕ → String → Except String (String × ℚ)) (maxTurns : ℕ)
    (persona : Persona) (fuel : ℕ) (transcript : List Turn)
    (history : List Msg) (latencies : List ℚ) (turnNumber : ℕ) (e : String)
    (hsim : sim (turnNumber + 1) = Except.error e) :
    runLoop sim api maxTurns persona (fuel + 1) transcript history latencies
      turnNumber =
      { transcript := transcript,
        termination := ⟨"error", turnNumber + 1, "Error occurred: " ++ e⟩,
        total_turns := turnNumber + 1,
        average_latency_ms := avgLatency latencies } := by
  rw [runLoop, hsim]

theorem runLoop_succ_of_ok (sim : ℕ → Except String String)
    (api : ℕ → String → Except String (String × ℚ)) (maxTurns : ℕ)
    (persona : Persona) (fuel : ℕ) (transcript : List Turn)
    (history : List Msg) (latencies : List ℚ) (turnNumber : ℕ)
    (userMessage : String)
    (hsim : sim (turnNumber + 1) = Except.ok userMessage) :
    runLoop sim api maxTurns persona (fuel + 1) transcript history latencies
      turnNumber =
      (match shouldTerminate maxTurns persona
          ((history ++ [⟨"user", userMessage⟩]) ++
            [⟨"assistant",
              (apiStep api (turnNumber + 1) userMessage latencies).1⟩])
          (turnNumber + 1) with
       | (true, reason, details) =>
         { transcript :=
             (transcript ++ [⟨turnNumber + 1, "user", userMessage⟩]) ++
               [⟨turnNumber + 1, "assistant",
                 (apiStep api (turnNumber + 1) userMessage latencies).1⟩],
           termination := ⟨reason.getD "", turnNumber + 1, details.getD ""⟩,
           total_turns := turnNumber + 1,
           average_latency_ms :=
             avgLatency (apiStep api (turnNumber + 1) userMessage latencies).2 }
       | (false, _, _) =>
         runLoop sim api maxTurns persona fuel
           ((transcript ++ [⟨turnNumber + 1, "user", userMessage⟩]) ++
             [⟨turnNumber + 1, "assistant",
               (apiStep api (turnNumber + 1) userMessage latencies).1⟩])
           ((history ++ [⟨"user", userMessage⟩]) ++
             [⟨"assistant",
               (apiStep api (turnNumber + 1) userMessage latencies).1⟩])
           (apiStep api (turnNumber + 1) userMessage latencies).2
           (turnNumber + 1)) := by
  rw [runLoop, hsim]

theorem runLoop_covers (sim : ℕ → Except String String)
    (api : ℕ → String → Except String (String × ℚ))
    (maxTurns : ℕ) (persona : Persona) :
    ∀ (fuel : ℕ) (transcript : List Turn) (history : List Msg)
      (latencies : List ℚ) (turnNumber : ℕ),
      coversTurns transcript turnNumber = true →
      (runLoop sim api maxTurns persona fuel transcript history latencies
        turnNumber).termination.reason ≠ "error" →
      coversTurns
        (runLoop sim api maxTurns persona fuel transcript history latencies
          turnNumber).transcript
        (runLoop sim api maxTurns persona fuel transcript history latencies
          turnNumber).total_turns = true := by
  intro fuel
  induction fuel with
  | zero =>
    intro transcript history latencies turnNumber _ herr
    exact absurd rfl herr
  | succ fuel ih =>
    intro transcript history latencies turnNumber hcov herr
    cases hsim : sim (turnNumber + 1) with
    | error e =>
      rw [runLoop_succ_of_error sim api maxTurns persona fuel transcript
        history latencies turnNumber e hsim] at herr
      exact absurd rfl herr
    | ok userMessage =>
      rw [runLoop_succ_of_ok sim api maxTurns persona fuel transcript
        history latencies turnNumber userMessage hsim] at herr ⊢
      rcases hterm : shouldTerminate maxTurns persona
          ((history ++ [⟨"user", userMessage⟩]) ++
            [⟨"assistant",
              (apiStep api (turnNumber + 1) userMessage latencies).1⟩])
          (turnNumber + 1) with ⟨fired, reason, details⟩
      rw [hterm] at herr ⊢
      cases fired with
      | true => exact coversTurns_extend transcript turnNumber _ _ hcov
      | false =>
        exact ih _ _ _ _ (coversTurns_extend transcript turnNumber _ _ hcov)
          herr

/-- C1 (amended): for every run of the orchestrator that terminates through
the termination checker (reason ≠ `error`), `total_turns` equals the
maximum turn number in the transcript and every turn from 1 to
`total_turns` has a `"user"` entry. Runs ending with reason `error` can
violate this: a simulator failure at turn `t` finalizes `total_turns = t`
while the transcript stops at turn `t - 1`. -/
theorem runConversation_covers (sim : ℕ → Except String String)
    (api : ℕ → String → Except String (String × ℚ))
    (maxTurns : ℕ) (persona : Persona)
    (h : (runConversation sim api maxTurns persona).termination.reason ≠
      "error") :
    coversTurns (runConversation sim api maxTurns persona).transcript
      (runConversation sim api maxTurns persona).total_turns = true :=
  runLoop_covers sim api maxTurns persona (maxTurns + 1) [] [] [] 0 rfl h

/-- Witness for C1 with an always-successful simulator and chat client and
cap 1: the run ends with `max_turns` and the invariant holds. -/
theorem runConversation_covers_witness :
    coversTurns
      (runConversation (fun _ => Except.ok "hello")
        (fun _ _ => Except.ok ("hi there", 100)) 1 alexPersona).transcript
      (runConversation (fun _ => Except.ok "hello")
        (fun _ _ => Except.ok ("hi there", 100)) 1 alexPersona).total_turns =
      true :=
  runConversation_covers (fun _ => Except.ok "hello")
    (fun _ _ => Except.ok ("hi there", 100)) 1 alexPersona (by decide)

/-- A simulator that succeeds at turn 1 and raises at every later turn. -/
def simFailsAt2 : ℕ → Except String String :=
  fun t => if t == 1 then Except.ok "hello" else Except.error "boom"

/-- A chat client that always answers. -/
def apiOk : ℕ → String → Except String (String × ℚ) :=
  fun _ _ => Except.ok ("let me check that for you", 100)

/-- C1 counterexample: when the simulator raises at turn 2 (cap 10), the run
ends with reason `error` and `total_turns = 2`, but the transcript's maximum
turn number is 1 and turn 2 has no user entry — the claimed invariant fails
for error runs. -/
theorem runConversation_error_cex :
    (runConversation simFailsAt2 apiOk 10 alexPersona).termination.reason =
      "error" ∧
    (runConversation simFailsAt2 apiOk 10 alexPersona).total_turns = 2 ∧
    maxTurnNumber
      (runConversation simFailsAt2 apiOk 10 alexPersona).transcript = 1 ∧
    coversTurns (runConversation simFailsAt2 apiOk 10 alexPersona).transcript
      (runConversation simFailsAt2 apiOk 10 alexPersona).total_turns =
      false := by
  decide

end Fyp
